import Mathlib

/-!
Verification of the student-performance analysis pipeline (ML-API).

The nine raw interaction metrics and all derived features are embedded over
the rationals; the `/predict` and `/analyze` operations are embedded as
total functions returning `Except HTTPException _`, with the external
scorer passed explicitly as an optional function (the global `best_model`).
-/

namespace MLAPI

/-- The validated request body (`UserInput` in `app.py`): nine raw metrics. -/
structure UserInput where
  hint_count : ℚ
  bottom_hint : ℚ
  attempt_count : ℚ
  ms_first_response : ℚ
  duration : ℚ
  avg_conf_frustrated : ℚ
  avg_conf_confused : ℚ
  avg_conf_concentrating : ℚ
  avg_conf_bored : ℚ
deriving DecidableEq, Repr

/-- The pydantic field constraints of `UserInput`: the five count/time
fields are `ge=0`, the four confidence fields are `ge=0, le=1`. -/
def UserInput.Valid (d : UserInput) : Prop :=
  0 ≤ d.hint_count ∧ 0 ≤ d.bottom_hint ∧ 0 ≤ d.attempt_count ∧
  0 ≤ d.ms_first_response ∧ 0 ≤ d.duration ∧
  (0 ≤ d.avg_conf_frustrated ∧ d.avg_conf_frustrated ≤ 1) ∧
  (0 ≤ d.avg_conf_confused ∧ d.avg_conf_confused ≤ 1) ∧
  (0 ≤ d.avg_conf_concentrating ∧ d.avg_conf_concentrating ≤ 1) ∧
  (0 ≤ d.avg_conf_bored ∧ d.avg_conf_bored ≤ 1)

instance (d : UserInput) : Decidable d.Valid := by
  unfold UserInput.Valid; infer_instance

/-- Computed field `action_count`: attempts + hints. -/
def UserInput.action_count (d : UserInput) : ℚ :=
  d.attempt_count + d.hint_count

/-- Computed field `action_level`: categorical simplification of action count. -/
def UserInput.action_level (d : UserInput) : ℤ :=
  if d.action_count = 0 then 0
  else if d.action_count = 1 then 1
  else 2

/-- Computed field `hint_dependency`. -/
def UserInput.hint_dependency (d : UserInput) : ℚ :=
  d.hint_count / (d.attempt_count + 1)

/-- Computed field `response_speed`. -/
def UserInput.response_speed (d : UserInput) : ℚ :=
  1 / (d.ms_first_response + 1)

/-- Computed field `confidence_balance`. -/
def UserInput.confidence_balance (d : UserInput) : ℚ :=
  d.avg_conf_concentrating - d.avg_conf_frustrated - d.avg_conf_confused

/-- Computed field `engagement_ratio` (epsilon 1e-6 in the denominator). -/
def UserInput.engagement_ratio (d : UserInput) : ℚ :=
  d.avg_conf_concentrating / (d.avg_conf_bored + 1e-6)

/-- Computed field `efficiency_indicator`. -/
def UserInput.efficiency_indicator (d : UserInput) : ℚ :=
  d.action_count / (d.attempt_count + 1)

/-- `categorize_student_performance`: ordinal, name, description, icon. -/
def categorize_student_performance (correctness_score : ℚ) :
    ℤ × String × String × String :=
  if correctness_score < 0.3 then
    (0, "Poor", "Needs immediate intervention and support", "🆘")
  else if correctness_score < 0.45 then
    (1, "Weak", "Requires additional practice and guidance", "⚠️")
  else if correctness_score < 0.6 then
    (2, "Below Average", "Shows potential but needs improvement", "📈")
  else if correctness_score < 0.75 then
    (3, "Average", "Solid understanding with room to grow", "✅")
  else if correctness_score < 0.9 then
    (4, "Strong", "Excellent performance and comprehension", "🌟")
  else
    (5, "Outstanding", "Exceptional mastery of the material", "🏆")

/-- `recommend_learning_material`: dict lookup with a generic default. -/
def recommend_learning_material (category_number : ℤ) : String :=
  if category_number = 0 then "🔹 Basics tutorial video + guided beginner-level exercises."
  else if category_number = 1 then "🔸 Visual explanation content + step-by-step practice problems."
  else if category_number = 2 then "🔹 Practice exercises with hints enabled + instant feedback."
  else if category_number = 3 then "✅ Standard module content + end-of-lesson quiz."
  else if category_number = 4 then "🌟 Advanced challenge problems + peer group discussion tasks."
  else if category_number = 5 then "🏆 Project-based learning module + opportunity to mentor peers."
  else "📘 Keep learning and practicing regularly."

/-- `generate_feedback_message`: dict lookup with a generic default. -/
def generate_feedback_message (category_number : ℤ) : String :=
  if category_number = 0 then "It's okay to struggle — the key is to keep going. Let's review the basics together."
  else if category_number = 1 then "You're making progress. Focus on the foundation, and don't hesitate to seek help."
  else if category_number = 2 then "You've got potential. A little more consistent effort will go a long way!"
  else if category_number = 3 then "Nice work! You're on track — just refine your skills step by step."
  else if category_number = 4 then "Great job! You've developed a solid understanding. Keep challenging yourself."
  else if category_number = 5 then "Outstanding! You've truly mastered the topic. Consider exploring advanced material or helping peers."
  else "Keep pushing forward — every step counts!"

/-- `generate_learner_profile`: four rules tried in order, else "General Learner". -/
def generate_learner_profile (data : UserInput) : String :=
  if data.duration < 1800 ∧ data.attempt_count < 3 ∧
      data.avg_conf_concentrating < 0.5 ∧ 0.3 < data.avg_conf_frustrated then
    "Fast but Careless 🐇"
  else if 1800 < data.duration ∧ data.hint_count < 5 ∧
      0.6 < data.avg_conf_concentrating ∧ 0.6 < data.efficiency_indicator then
    "Slow and Careful 🐢"
  else if 6 < data.hint_count ∧ 0.3 < data.avg_conf_confused ∧
      5 < data.bottom_hint ∧ data.confidence_balance < 0.4 then
    "Confused Learner 🤔"
  else if 0.6 < data.avg_conf_concentrating ∧ 0.6 < data.confidence_balance ∧
      data.hint_dependency < 0.3 ∧ 0.6 < data.efficiency_indicator then
    "Focused Performer 🎯"
  else
    "General Learner"

/-- `classify_engagement`. -/
def classify_engagement (ratio : ℚ) : String :=
  if 2 < ratio then "High" else if 1 < ratio then "Moderate" else "Low"

/-- `classify_hint_dependency`. -/
def classify_hint_dependency (dep : ℚ) : String :=
  if 0.7 < dep then "High" else if 0.3 < dep then "Moderate" else "Low"

/-- `classify_efficiency`. -/
def classify_efficiency (val : ℚ) : String :=
  if 1 < val then "High" else if 0.5 < val then "Moderate" else "Low"

/-- `classify_response_speed`. -/
def classify_response_speed (speed : ℚ) : String :=
  if 0.05 < speed then "Fast" else if 0.01 < speed then "Moderate" else "Slow"

/-- `classify_confidence`. -/
def classify_confidence (balance : ℚ) : String :=
  if 0.2 < balance then "Positive" else if -0.2 < balance then "Neutral" else "Negative"

/-- `classify_persistence`. -/
def classify_persistence (attempts : ℚ) : String :=
  if 5 < attempts then "High" else if 2 < attempts then "Moderate" else "Low"

/-- `classify_activity`. -/
def classify_activity (actions : ℚ) : String :=
  if actions = 0 then "None" else if actions = 1 then "Minimal" else "Active"

/-- The seven behavior tags, as assembled by both endpoints. -/
structure Behaviors where
  engagement : String
  hint_dependency : String
  efficiency : String
  response_speed : String
  confidence_balance : String
  persistence : String
  overall_activity : String
deriving DecidableEq, Repr

/-- The `behaviors` dict of each endpoint: one classifier per feature. -/
def behaviors_of (data : UserInput) : Behaviors :=
  ⟨classify_engagement data.engagement_ratio,
   classify_hint_dependency data.hint_dependency,
   classify_efficiency data.efficiency_indicator,
   classify_response_speed data.response_speed,
   classify_confidence data.confidence_balance,
   classify_persistence data.attempt_count,
   classify_activity data.action_count⟩

/-- The six derived metric values reported as `raw_metrics` / `computed_metrics`. -/
structure ComputedMetrics where
  action_count : ℚ
  hint_dependency : ℚ
  response_speed : ℚ
  confidence_balance : ℚ
  engagement_ratio : ℚ
  efficiency_indicator : ℚ
deriving DecidableEq, Repr

/-- The metrics block of each endpoint's response. -/
def computed_metrics_of (data : UserInput) : ComputedMetrics :=
  ⟨data.action_count, data.hint_dependency, data.response_speed,
   data.confidence_balance, data.engagement_ratio, data.efficiency_indicator⟩

/-- The `prediction` block of the `/predict` response. -/
structure Prediction where
  correctness_score : ℚ
  category_number : ℤ
  performance_category : String
  description : String
  emoji : String
deriving DecidableEq, Repr

/-- The `recommendations` block of the `/predict` response. -/
structure Recommendations where
  learning_material : String
  feedback_message : String
deriving DecidableEq, Repr

/-- The full `/predict` response body. -/
structure PredictionResponse where
  prediction : Prediction
  learner_profile : String
  behaviors : Behaviors
  recommendations : Recommendations
  raw_metrics : ComputedMetrics
deriving DecidableEq, Repr

/-- The `/analyze` response body. -/
structure AnalysisResponse where
  learner_profile : String
  behaviors : Behaviors
  computed_metrics : ComputedMetrics
deriving DecidableEq, Repr

/-- A FastAPI `HTTPException`: status code and detail string. -/
structure HTTPException where
  status_code : ℤ
  detail : String
deriving DecidableEq, Repr

/-- The single-row DataFrame handed to the model: the 9 raw metrics followed
by the 6 derived features, in the column order of `app.py`. -/
def input_df (data : UserInput) : List ℚ :=
  [data.hint_count, data.bottom_hint, data.attempt_count, data.ms_first_response,
   data.duration, data.avg_conf_frustrated, data.avg_conf_confused,
   data.avg_conf_concentrating, data.avg_conf_bored, data.action_count,
   data.hint_dependency, data.response_speed, data.confidence_balance,
   data.engagement_ratio, data.efficiency_indicator]

/-- The external scorer (`best_model.predict(...)[0]`): takes the input row and
either returns a correctness score or raises (modelled as `Except.error`). -/
def Scorer : Type := List ℚ → Except String ℚ

/-- The error raised at `app.py` line 259 when `best_model is None`. -/
def modelNotLoadedError : HTTPException := ⟨500, "Model not loaded"⟩

/-- The error raised at `app.py` line 315 when the scorer raises `e`. -/
def predictionFailedError (e : String) : HTTPException :=
  ⟨500, "Prediction failed: " ++ e⟩

/-- The `/predict` endpoint `predicted_correctness`: fails when no model is
loaded; catches any scorer exception and wraps it; otherwise composes the
category, profile, behaviors, recommendations and metrics into the response. -/
def predicted_correctness (best_model : Option Scorer) (data : UserInput) :
    Except HTTPException PredictionResponse :=
  match best_model with
  | none => Except.error modelNotLoadedError
  | some model =>
    match model (input_df data) with
    | Except.error e => Except.error (predictionFailedError e)
    | Except.ok score =>
      let c := categorize_student_performance score
      Except.ok ⟨⟨score, c.1, c.2.1, c.2.2.1, c.2.2.2⟩,
        generate_learner_profile data,
        behaviors_of data,
        ⟨recommend_learning_material c.1, generate_feedback_message c.1⟩,
        computed_metrics_of data⟩

/-- The `/analyze` endpoint `analyze_student_behavior`: no error path. -/
def analyze_student_behavior (data : UserInput) :
    Except HTTPException AnalysisResponse :=
  Except.ok ⟨generate_learner_profile data, behaviors_of data, computed_metrics_of data⟩

/-- An all-zero valid input, used as a concrete witness. -/
def sampleValid : UserInput := ⟨0, 0, 0, 0, 0, 0, 0, 0, 0⟩

/-- A valid input satisfying both learner-profile rule 1 and rule 3:
hint_count 7, bottom_hint 6, everything timed at 0, frustrated, confused and
concentrating all at 0.4 (so confidence_balance is negative). -/
def sampleRule13 : UserInput := ⟨7, 6, 0, 0, 0, 0.4, 0.4, 0.4, 0⟩

/-- C1: for every valid RawMetrics, the derived features equal exactly the
formulas of spec section 3 (action_count, action_level, hint_dependency,
response_speed, confidence_balance, engagement_ratio, efficiency_indicator). -/
theorem C1_derived_features_match_formulas (d : UserInput) (h : d.Valid) :
    d.action_count = d.attempt_count + d.hint_count ∧
    d.action_level =
      (if d.action_count = 0 then 0 else if d.action_count = 1 then 1 else 2) ∧
    d.hint_dependency = d.hint_count / (d.attempt_count + 1) ∧
    d.response_speed = 1 / (d.ms_first_response + 1) ∧
    d.confidence_balance =
      d.avg_conf_concentrating - d.avg_conf_frustrated - d.avg_conf_confused ∧
    d.engagement_ratio = d.avg_conf_concentrating / (d.avg_conf_bored + 1e-6) ∧
    d.efficiency_indicator = d.action_count / (d.attempt_count + 1) :=
  ⟨rfl, rfl, rfl, rfl, rfl, rfl, rfl⟩

/-- Witness for C1 at the all-zero valid input. -/
theorem C1_derived_features_match_formulas_witness :
    sampleValid.hint_dependency =
      sampleValid.hint_count / (sampleValid.attempt_count + 1) :=
  (C1_derived_features_match_formulas sampleValid
    (by norm_num [sampleValid, UserInput.Valid])).2.2.1

/-- C2: the performance categorizer realizes the exhaustive, non-overlapping
left-closed right-open partition of spec section 4.2 (each ordinal is taken
exactly on its range), each boundary value maps to the upper bucket, and a
score of exactly 0.9 yields ordinal 5 "Outstanding". -/
theorem C2_performance_partition :
    (∀ q : ℚ,
      ((categorize_student_performance q).1 = 0 ↔ q < 0.3) ∧
      ((categorize_student_performance q).1 = 1 ↔ 0.3 ≤ q ∧ q < 0.45) ∧
      ((categorize_student_performance q).1 = 2 ↔ 0.45 ≤ q ∧ q < 0.6) ∧
      ((categorize_student_performance q).1 = 3 ↔ 0.6 ≤ q ∧ q < 0.75) ∧
      ((categorize_student_performance q).1 = 4 ↔ 0.75 ≤ q ∧ q < 0.9) ∧
      ((categorize_student_performance q).1 = 5 ↔ 0.9 ≤ q)) ∧
    (categorize_student_performance 0.3).1 = 1 ∧
    (categorize_student_performance 0.45).1 = 2 ∧
    (categorize_student_performance 0.6).1 = 3 ∧
    (categorize_student_performance 0.75).1 = 4 ∧
    categorize_student_performance 0.9 =
      (5, "Outstanding", "Exceptional mastery of the material", "🏆") := by
  refine ⟨fun q => ?_, ?_, ?_, ?_, ?_, ?_⟩
  · unfold categorize_student_performance
    split_ifs with h1 h2 h3 h4 h5 <;>
      refine ⟨?_, ?_, ?_, ?_, ?_, ?_⟩ <;> norm_num <;>
      first
      | linarith
      | (constructor <;> linarith)
      | (intro h ; linarith)
  · norm_num [categorize_student_performance]
  · norm_num [categorize_student_performance]
  · norm_num [categorize_student_performance]
  · norm_num [categorize_student_performance]
  · norm_num [categorize_student_performance]

/-- C3: a valid input satisfying both rule 1 and rule 3 of the learner-profile
classifier resolves to rule 1's label. -/
theorem C3_rule1_beats_rule3 (d : UserInput) (h : d.Valid)
    (h1 : d.duration < 1800 ∧ d.attempt_count < 3 ∧
      d.avg_conf_concentrating < 0.5 ∧ 0.3 < d.avg_conf_frustrated)
    (h3 : 6 < d.hint_count ∧ 0.3 < d.avg_conf_confused ∧
      5 < d.bottom_hint ∧ d.confidence_balance < 0.4) :
    generate_learner_profile d = "Fast but Careless 🐇" := by
  unfold generate_learner_profile
  rw [if_pos h1]

/-- Witness for C3 at a concrete input satisfying rule 1 and rule 3. -/
theorem C3_rule1_beats_rule3_witness :
    generate_learner_profile sampleRule13 = "Fast but Careless 🐇" :=
  C3_rule1_beats_rule3 sampleRule13
    (by norm_num [sampleRule13, UserInput.Valid])
    (by norm_num [sampleRule13])
    (by norm_num [sampleRule13, UserInput.confidence_balance])

/-- C4: if none of the four learner-profile rules is satisfied, the profile is
exactly "General Learner". -/
theorem C4_default_profile (d : UserInput) (h : d.Valid)
    (h1 : ¬(d.duration < 1800 ∧ d.attempt_count < 3 ∧
      d.avg_conf_concentrating < 0.5 ∧ 0.3 < d.avg_conf_frustrated))
    (h2 : ¬(1800 < d.duration ∧ d.hint_count < 5 ∧
      0.6 < d.avg_conf_concentrating ∧ 0.6 < d.efficiency_indicator))
    (h3 : ¬(6 < d.hint_count ∧ 0.3 < d.avg_conf_confused ∧
      5 < d.bottom_hint ∧ d.confidence_balance < 0.4))
    (h4 : ¬(0.6 < d.avg_conf_concentrating ∧ 0.6 < d.confidence_balance ∧
      d.hint_dependency < 0.3 ∧ 0.6 < d.efficiency_indicator)) :
    generate_learner_profile d = "General Learner" := by
  unfold generate_learner_profile
  rw [if_neg h1, if_neg h2, if_neg h3, if_neg h4]

/-- Witness for C4 at the all-zero valid input, which satisfies no rule. -/
theorem C4_default_profile_witness :
    generate_learner_profile sampleValid = "General Learner" :=
  C4_default_profile sampleValid
    (by norm_num [sampleValid, UserInput.Valid])
    (by norm_num [sampleValid])
    (by norm_num [sampleValid])
    (by norm_num [sampleValid])
    (by norm_num [sampleValid])

/-- Characterization of the engagement ladder. -/
theorem classify_engagement_char (r : ℚ) :
    (classify_engagement r = "High" ↔ 2 < r) ∧
    (classify_engagement r = "Moderate" ↔ 1 < r ∧ r ≤ 2) ∧
    (classify_engagement r = "Low" ↔ r ≤ 1) := by
  unfold classify_engagement
  split_ifs with h1 h2 <;> refine ⟨?_, ?_, ?_⟩ <;> simp <;>
    first
    | linarith
    | (constructor <;> linarith)
    | (intro h ; linarith)

/-- Characterization of the hint-dependency ladder. -/
theorem classify_hint_dependency_char (r : ℚ) :
    (classify_hint_dependency r = "High" ↔ 0.7 < r) ∧
    (classify_hint_dependency r = "Moderate" ↔ 0.3 < r ∧ r ≤ 0.7) ∧
    (classify_hint_dependency r = "Low" ↔ r ≤ 0.3) := by
  unfold classify_hint_dependency
  split_ifs with h1 h2 <;> refine ⟨?_, ?_, ?_⟩ <;> simp <;>
    first
    | linarith
    | (constructor <;> linarith)
    | (intro h ; linarith)

/-- Characterization of the efficiency ladder. -/
theorem classify_efficiency_char (r : ℚ) :
    (classify_efficiency r = "High" ↔ 1 < r) ∧
    (classify_efficiency r = "Moderate" ↔ 0.5 < r ∧ r ≤ 1) ∧
    (classify_efficiency r = "Low" ↔ r ≤ 0.5) := by
  unfold classify_efficiency
  split_ifs with h1 h2 <;> refine ⟨?_, ?_, ?_⟩ <;> simp <;>
    first
    | linarith
    | (constructor <;> linarith)
    | (intro h ; linarith)

/-- Characterization of the response-speed ladder. -/
theorem classify_response_speed_char (r : ℚ) :
    (classify_response_speed r = "Fast" ↔ 0.05 < r) ∧
    (classify_response_speed r = "Moderate" ↔ 0.01 < r ∧ r ≤ 0.05) ∧
    (classify_response_speed r = "Slow" ↔ r ≤ 0.01) := by
  unfold classify_response_speed
  split_ifs with h1 h2 <;> refine ⟨?_, ?_, ?_⟩ <;> simp <;>
    first
    | linarith
    | (constructor <;> linarith)
    | (intro h ; linarith)

/-- Characterization of the confidence-balance ladder. -/
theorem classify_confidence_char (r : ℚ) :
    (classify_confidence r = "Positive" ↔ 0.2 < r) ∧
    (classify_confidence r = "Neutral" ↔ -0.2 < r ∧ r ≤ 0.2) ∧
    (classify_confidence r = "Negative" ↔ r ≤ -0.2) := by
  unfold classify_confidence
  split_ifs with h1 h2 <;> refine ⟨?_, ?_, ?_⟩ <;> simp <;>
    first
    | linarith
    | (constructor <;> linarith)
    | (intro h ; linarith)

/-- Characterization of the persistence ladder. -/
theorem classify_persistence_char (r : ℚ) :
    (classify_persistence r = "High" ↔ 5 < r) ∧
    (classify_persistence r = "Moderate" ↔ 2 < r ∧ r ≤ 5) ∧
    (classify_persistence r = "Low" ↔ r ≤ 2) := by
  unfold classify_persistence
  split_ifs with h1 h2 <;> refine ⟨?_, ?_, ?_⟩ <;> simp <;>
    first
    | linarith
    | (constructor <;> linarith)
    | (intro h ; linarith)

/-- Characterization of the overall-activity ladder (exact equality tests). -/
theorem classify_activity_char (r : ℚ) :
    (classify_activity r = "None" ↔ r = 0) ∧
    (classify_activity r = "Minimal" ↔ r = 1) ∧
    (classify_activity r = "Active" ↔ r ≠ 0 ∧ r ≠ 1) := by
  unfold classify_activity
  split_ifs with h1 h2 <;> subst_vars <;> simp_all

/-- C5: for every valid RawMetrics, each of the seven behavior tags is its own
threshold ladder on a single feature, first match from the top winning, with
exactly the thresholds of spec section 4.4. -/
theorem C5_behavior_tag_ladders (d : UserInput) (h : d.Valid) :
    behaviors_of d =
      ⟨classify_engagement d.engagement_ratio,
       classify_hint_dependency d.hint_dependency,
       classify_efficiency d.efficiency_indicator,
       classify_response_speed d.response_speed,
       classify_confidence d.confidence_balance,
       classify_persistence d.attempt_count,
       classify_activity d.action_count⟩ ∧
    (∀ r : ℚ,
      ((classify_engagement r = "High" ↔ 2 < r) ∧
       (classify_engagement r = "Moderate" ↔ 1 < r ∧ r ≤ 2) ∧
       (classify_engagement r = "Low" ↔ r ≤ 1)) ∧
      ((classify_hint_dependency r = "High" ↔ 0.7 < r) ∧
       (classify_hint_dependency r = "Moderate" ↔ 0.3 < r ∧ r ≤ 0.7) ∧
       (classify_hint_dependency r = "Low" ↔ r ≤ 0.3)) ∧
      ((classify_efficiency r = "High" ↔ 1 < r) ∧
       (classify_efficiency r = "Moderate" ↔ 0.5 < r ∧ r ≤ 1) ∧
       (classify_efficiency r = "Low" ↔ r ≤ 0.5)) ∧
      ((classify_response_speed r = "Fast" ↔ 0.05 < r) ∧
       (classify_response_speed r = "Moderate" ↔ 0.01 < r ∧ r ≤ 0.05) ∧
       (classify_response_speed r = "Slow" ↔ r ≤ 0.01)) ∧
      ((classify_confidence r = "Positive" ↔ 0.2 < r) ∧
       (classify_confidence r = "Neutral" ↔ -0.2 < r ∧ r ≤ 0.2) ∧
       (classify_confidence r = "Negative" ↔ r ≤ -0.2)) ∧
      ((classify_persistence r = "High" ↔ 5 < r) ∧
       (classify_persistence r = "Moderate" ↔ 2 < r ∧ r ≤ 5) ∧
       (classify_persistence r = "Low" ↔ r ≤ 2)) ∧
      ((classify_activity r = "None" ↔ r = 0) ∧
       (classify_activity r = "Minimal" ↔ r = 1) ∧
       (classify_activity r = "Active" ↔ r ≠ 0 ∧ r ≠ 1))) :=
  ⟨rfl, fun r =>
    ⟨classify_engagement_char r, classify_hint_dependency_char r,
     classify_efficiency_char r, classify_response_speed_char r,
     classify_confidence_char r, classify_persistence_char r,
     classify_activity_char r⟩⟩

/-- Witness for C5 at the all-zero valid input. -/
theorem C5_behavior_tag_ladders_witness :
    classify_engagement sampleValid.engagement_ratio = "Low" ↔
      sampleValid.engagement_ratio ≤ 1 :=
  (((C5_behavior_tag_ladders sampleValid
    (by norm_num [sampleValid, UserInput.Valid])).2
      sampleValid.engagement_ratio).1).2.2

/-- C6: the denominators of hint_dependency, response_speed and
efficiency_indicator are strictly positive for non-negative attempt_count and
ms_first_response, and the all-zero counts give hint_dependency 0 and
efficiency_indicator 0. -/
theorem C6_no_division_by_zero (d : UserInput)
    (ha : 0 ≤ d.attempt_count) (hm : 0 ≤ d.ms_first_response) :
    0 < d.attempt_count + 1 ∧ 0 < d.ms_first_response + 1 ∧
    (d.attempt_count = 0 → d.hint_count = 0 →
      d.hint_dependency = 0 ∧ d.efficiency_indicator = 0) := by
  refine ⟨by linarith, by linarith, fun h0 hh => ?_⟩
  unfold UserInput.hint_dependency UserInput.efficiency_indicator UserInput.action_count
  rw [h0, hh]
  norm_num

/-- Witness for C6 at the all-zero valid input. -/
theorem C6_no_division_by_zero_witness :
    sampleValid.hint_dependency = 0 ∧ sampleValid.efficiency_indicator = 0 :=
  (C6_no_division_by_zero sampleValid (by norm_num [sampleValid])
    (by norm_num [sampleValid])).2.2 (by norm_num [sampleValid]) (by norm_num [sampleValid])

/-- C7: the analyze operation succeeds on every valid input, returning the
learner profile, the seven behavior tags and the six derived metric values. -/
theorem C7_analyze_always_succeeds (d : UserInput) (h : d.Valid) :
    ∃ r : AnalysisResponse,
      analyze_student_behavior d = Except.ok r ∧
      r.learner_profile = generate_learner_profile d ∧
      r.behaviors =
        ⟨classify_engagement d.engagement_ratio,
         classify_hint_dependency d.hint_dependency,
         classify_efficiency d.efficiency_indicator,
         classify_response_speed d.response_speed,
         classify_confidence d.confidence_balance,
         classify_persistence d.attempt_count,
         classify_activity d.action_count⟩ ∧
      r.computed_metrics =
        ⟨d.action_count, d.hint_dependency, d.response_speed,
         d.confidence_balance, d.engagement_ratio, d.efficiency_indicator⟩ :=
  ⟨_, rfl, rfl, rfl, rfl⟩

/-- Witness for C7 at the all-zero valid input. -/
theorem C7_analyze_always_succeeds_witness :
    ∃ r : AnalysisResponse,
      analyze_student_behavior sampleValid = Except.ok r ∧
      r.learner_profile = generate_learner_profile sampleValid ∧
      r.behaviors =
        ⟨classify_engagement sampleValid.engagement_ratio,
         classify_hint_dependency sampleValid.hint_dependency,
         classify_efficiency sampleValid.efficiency_indicator,
         classify_response_speed sampleValid.response_speed,
         classify_confidence sampleValid.confidence_balance,
         classify_persistence sampleValid.attempt_count,
         classify_activity sampleValid.action_count⟩ ∧
      r.computed_metrics =
        ⟨sampleValid.action_count, sampleValid.hint_dependency,
         sampleValid.response_speed, sampleValid.confidence_balance,
         sampleValid.engagement_ratio, sampleValid.efficiency_indicator⟩ :=
  C7_analyze_always_succeeds sampleValid (by norm_num [sampleValid, UserInput.Valid])

/-- C8: with no model loaded, prediction fails fast with the model-not-loaded
error, which differs from every prediction-failed error. -/
theorem C8_scorer_unavailable_error :
    (∀ d : UserInput, d.Valid →
      predicted_correctness none d = Except.error modelNotLoadedError) ∧
    (∀ e : String, modelNotLoadedError ≠ predictionFailedError e) := by
  constructor
  · intro d _
    rfl
  · intro e h
    have hd : ("Model not loaded" : String) = "Prediction failed: " ++ e :=
      congrArg HTTPException.detail h
    have hl := congrArg String.length hd
    rw [String.length_append] at hl
    have h16 : ("Model not loaded" : String).length = 16 := by decide
    have h19 : ("Prediction failed: " : String).length = 19 := by decide
    omega

/-- Witness for C8 at the all-zero valid input and a concrete cause. -/
theorem C8_scorer_unavailable_error_witness :
    predicted_correctness none sampleValid = Except.error modelNotLoadedError ∧
    modelNotLoadedError ≠ predictionFailedError "boom" :=
  ⟨C8_scorer_unavailable_error.1 sampleValid (by norm_num [sampleValid, UserInput.Valid]),
   C8_scorer_unavailable_error.2 "boom"⟩

/-- C9: any exception raised by the scorer is caught and surfaced as a
prediction-failed error wrapping the cause. -/
theorem C9_scorer_exception_caught (d : UserInput) (h : d.Valid) (model : Scorer)
    (e : String) (he : model (input_df d) = Except.error e) :
    predicted_correctness (some model) d =
      Except.error (predictionFailedError e) := by
  simp [predicted_correctness, he]

/-- A scorer that always raises, used as a concrete witness. -/
def failingScorer : Scorer := fun _ => Except.error "boom"

/-- Witness for C9 at the all-zero valid input and the always-raising scorer. -/
theorem C9_scorer_exception_caught_witness :
    predicted_correctness (some failingScorer) sampleValid =
      Except.error (predictionFailedError "boom") :=
  C9_scorer_exception_caught sampleValid
    (by norm_num [sampleValid, UserInput.Valid]) failingScorer "boom" rfl

/-- C10: an action_count strictly between 0 and 1 (possible since the raw
fields are real-valued) is classified "Active", not "None" or "Minimal". -/
theorem C10_fractional_action_count (d : UserInput) (h : d.Valid)
    (h0 : 0 < d.action_count) (h1 : d.action_count < 1) :
    classify_activity d.action_count = "Active" ∧
    ("Active" : String) ≠ "None" ∧ ("Active" : String) ≠ "Minimal" := by
  refine ⟨?_, by decide, by decide⟩
  unfold classify_activity
  rw [if_neg h0.ne', if_neg h1.ne]

/-- A valid input with attempt_count 0.5 and hint_count 0, so action_count 0.5. -/
def sampleHalf : UserInput := ⟨0, 0, 0.5, 0, 0, 0, 0, 0, 0⟩

/-- Witness for C10 at attempt_count 0.5, hint_count 0. -/
theorem C10_fractional_action_count_witness :
    classify_activity sampleHalf.action_count = "Active" ∧
    ("Active" : String) ≠ "None" ∧ ("Active" : String) ≠ "Minimal" :=
  C10_fractional_action_count sampleHalf
    (by norm_num [sampleHalf, UserInput.Valid])
    (by norm_num [sampleHalf, UserInput.action_count])
    (by norm_num [sampleHalf, UserInput.action_count])

end MLAPI
